import Mathlib

/-! # The driver indirection layer of `mydb.c`

A shallow embedding of `src/mydb.c`: the driver table of function pointers
that `mydb_init` fills through `dlopen`/`dlsym`, and the wrappers that call
through it (`mydb_open`, `mydb_exec`, `mydb_close`, `myapp_read_input`,
`myapp_format`).

Conventions of the embedding.

* A pointer is a natural number and `0` is `NULL`.  The driver table stores
  code addresses exactly as the C struct does; what the code at an address
  does when it is called is given by the environment (`Sys`).
* Everything that lives behind the function pointers (the database library,
  the input stream, the allocator) has a state of an arbitrary type `W`.
* Every call that leaves `mydb.c` is appended to a trace, oldest first.
* An execution that the C standard leaves undefined (a call through a null
  function pointer, `conn->db` on a pointer that is no live handle, an access
  past the end of a buffer) is an explicit `Fault`.
-/

namespace MyDb

/-- Machine addresses; `0` is the null pointer. -/
abbrev Ptr := Nat

/-- A `char *` handed back by foreign code: the address, which is what
`sqlite3_free` receives, and the text stored there, which is what `%s` prints. -/
structure CharPtr where
  addr : Ptr
  text : String
deriving DecidableEq, Repr

/-- The seven function-pointer members of the `driver` struct. -/
inductive Slot where
  | open_
  | exec
  | close
  | freemem
  | errmsg
  | readline
  | format
deriving DecidableEq, Repr

/-- The `driver` struct of `mydb.c` (lines 29-38).  The member `open` is spelt
`open_` here. -/
structure Driver where
  open_ : Ptr
  exec : Ptr
  close : Ptr
  freemem : Ptr
  errmsg : Ptr
  readline : Ptr
  format : Ptr
  stdin_handle : Ptr
deriving DecidableEq, Repr

/-- The table as static storage holds it before `mydb_init` runs: all zero. -/
def Driver.empty : Driver := ⟨0, 0, 0, 0, 0, 0, 0, 0⟩

/-- The address stored in a slot. -/
def Driver.get (d : Driver) : Slot → Ptr
  | .open_ => d.open_
  | .exec => d.exec
  | .close => d.close
  | .freemem => d.freemem
  | .errmsg => d.errmsg
  | .readline => d.readline
  | .format => d.format

/-- `struct mydb_conn` (lines 60-62). -/
structure mydb_conn where
  db : Ptr
deriving DecidableEq, Repr

/-- Calls that leave `mydb.c`, with the arguments they are made with.  Calls
through the driver table carry the code address that was called. -/
inductive Event where
  | dlopen (name : String)
  | dlsym (handle : Ptr) (name : String)
  | malloc (result : Ptr)
  | free (p : Ptr)
  | db_open (fn : Ptr) (path : String)
  | db_exec (fn : Ptr) (db : Ptr) (sql : String) (callback : Ptr) (context : Ptr)
  | db_close (fn : Ptr) (db : Ptr)
  | db_free (fn : Ptr) (p : Ptr)
  | db_errmsg (fn : Ptr) (db : Ptr)
  | read_line (fn : Ptr) (size : Int) (stream : Ptr)
  | formatter (fn : Ptr) (size : Nat) (fmt : String) (value : String)
  | printf (fmt : String) (arg : String)
  | fprintf_stderr (fmt : String) (arg : CharPtr)
deriving DecidableEq, Repr

/-- The slot an event is a call through, if it is one. -/
def Event.slot : Event → Option Slot
  | .db_open _ _ => some .open_
  | .db_exec _ _ _ _ _ => some .exec
  | .db_close _ _ => some .close
  | .db_free _ _ => some .freemem
  | .db_errmsg _ _ => some .errmsg
  | .read_line _ _ _ => some .readline
  | .formatter _ _ _ _ => some .format
  | _ => none

/-- Whether an event writes to the diagnostic stream. -/
def Event.isLog : Event → Bool
  | .fprintf_stderr _ _ => true
  | _ => false

/-- The calls through `slot` among a list of events, in order. -/
def callsThrough (slot : Slot) (es : List Event) : List Event :=
  es.filter (fun e => e.slot = some slot)

/-- The writes to the diagnostic stream among a list of events, in order. -/
def logged (es : List Event) : List Event :=
  es.filter Event.isLog

/-- The environment of the process.

* `dlopen name` is the handle of the library, `0` when it does not load (the
  flags `RTLD_NOW | RTLD_GLOBAL` are the same in both calls and are left out).
* `dlsym handle name` is the address of the symbol, `0` when it is not found.
* `RTLD_DEFAULT` is the pseudo-handle of `<dlfcn.h>` for the default namespace.
* `call_* fn w args` is what the code at address `fn` does when it is called
  with the signature of the corresponding `fn_*` typedef in state `w`: its
  result, what it stores through its out-parameters, and the next state.
-/
structure Sys (W : Type) where
  dlopen : String → Ptr
  dlsym : Ptr → String → Ptr
  RTLD_DEFAULT : Ptr
  stdin : Ptr
  malloc : W → Ptr × W
  call_db_open : Ptr → W → String → Ptr × Ptr × W
  call_db_exec : Ptr → W → Ptr → String → Ptr → Ptr → Int × CharPtr × W
  call_db_close : Ptr → W → Ptr → W
  call_db_free : Ptr → W → Ptr → W
  call_db_errmsg : Ptr → W → Ptr → CharPtr × W
  call_read_line : Ptr → W → List Char → Int → Ptr → Ptr × List Char × W
  call_formatter : Ptr → W → List Char → Nat → String → String → Int × List Char × W

/-- The state of the process as `mydb.c` sees it: the global `driver`, the
`mydb_conn` objects that are allocated (a handle is live when the heap has an
object at its address), the state behind the function pointers, and the calls
made so far. -/
structure State (W : Type) where
  driver : Driver
  heap : Ptr → Option mydb_conn
  world : W
  trace : List Event

/-- Executions the C standard leaves undefined. -/
inductive Fault where
  | nullCall (slot : Slot)
  | badHandle
  | overrun
deriving DecidableEq, Repr

/-- The heap with the object at `p` replaced. -/
def store (h : Ptr → Option mydb_conn) (p : Ptr) (v : Option mydb_conn) :
    Ptr → Option mydb_conn :=
  fun q => if q = p then v else h q

/-- The process before `mydb_init`: zeroed table, no handle, nothing called. -/
def State.initial {W : Type} (w : W) : State W :=
  { driver := Driver.empty, heap := fun _ => none, world := w, trace := [] }

/-- `mydb_init` (lines 42-56). -/
def mydb_init {W : Type} (sys : Sys W) (s : State W) : State W :=
  let first := sys.dlopen "libsqlite3.so"
  let libsqlite := if first = 0 then sys.dlopen "libsqlite3.so.0" else first
  { s with
    driver :=
      { open_ := sys.dlsym libsqlite "sqlite3_open"
        exec := sys.dlsym libsqlite "sqlite3_exec"
        close := sys.dlsym libsqlite "sqlite3_close"
        freemem := sys.dlsym libsqlite "sqlite3_free"
        errmsg := sys.dlsym libsqlite "sqlite3_errmsg"
        readline := sys.dlsym sys.RTLD_DEFAULT "fgets"
        format := sys.dlsym sys.RTLD_DEFAULT "snprintf"
        stdin_handle := sys.stdin }
    trace := s.trace
      ++ (Event.dlopen "libsqlite3.so" ::
            if first = 0 then [Event.dlopen "libsqlite3.so.0"] else [])
      ++ [Event.dlsym libsqlite "sqlite3_open",
          Event.dlsym libsqlite "sqlite3_exec",
          Event.dlsym libsqlite "sqlite3_close",
          Event.dlsym libsqlite "sqlite3_free",
          Event.dlsym libsqlite "sqlite3_errmsg",
          Event.dlsym sys.RTLD_DEFAULT "fgets",
          Event.dlsym sys.RTLD_DEFAULT "snprintf"] }

/-- `mydb_open` (lines 66-77).  The result is the handle, `0` for `NULL`. -/
def mydb_open {W : Type} (sys : Sys W) (s : State W) (db_path : String) :
    Except Fault (Ptr × State W) :=
  let m := sys.malloc s.world
  let conn := m.1
  let s0 : State W := { s with world := m.2, trace := s.trace ++ [Event.malloc conn] }
  if conn = 0 then .ok (0, s0)
  else if s.driver.open_ = 0 then .error (.nullCall .open_)
  else
    let r := sys.call_db_open s.driver.open_ s0.world db_path
    let db := r.2.1
    let s1 : State W :=
      { s0 with
        world := r.2.2
        heap := store s0.heap conn (some ⟨db⟩)
        trace := s0.trace ++ [Event.db_open s.driver.open_ db_path] }
    if r.1 ≠ 0 then
      if s.driver.errmsg = 0 then .error (.nullCall .errmsg)
      else
        let e := sys.call_db_errmsg s.driver.errmsg s1.world db
        .ok (0,
          { s1 with
            world := e.2
            heap := store s1.heap conn none
            trace := s1.trace ++
              [Event.db_errmsg s.driver.errmsg db,
               Event.fprintf_stderr "Cannot open database: %s\n" e.1,
               Event.free conn] })
    else .ok (conn, s1)

/-- `mydb_exec` (lines 79-88). -/
def mydb_exec {W : Type} (sys : Sys W) (s : State W) (conn : Ptr) (sql : String) :
    Except Fault (Int × State W) :=
  match s.heap conn with
  | none => .error .badHandle
  | some c =>
    if s.driver.exec = 0 then .error (.nullCall .exec)
    else
      let r := sys.call_db_exec s.driver.exec s.world c.db sql 0 0
      let err_msg := r.2.1
      let s1 : State W :=
        { s with
          world := r.2.2
          trace := s.trace ++ [Event.db_exec s.driver.exec c.db sql 0 0] }
      if r.1 ≠ 0 then
        if s.driver.freemem = 0 then .error (.nullCall .freemem)
        else
          .ok (-1,
            { s1 with
              world := sys.call_db_free s.driver.freemem s1.world err_msg.addr
              trace := s1.trace ++
                [Event.fprintf_stderr "SQL error: %s\n" err_msg,
                 Event.db_free s.driver.freemem err_msg.addr] })
      else .ok (0, s1)

/-- `mydb_close` (lines 90-95). -/
def mydb_close {W : Type} (sys : Sys W) (s : State W) (conn : Ptr) :
    Except Fault (State W) :=
  if conn ≠ 0 then
    match s.heap conn with
    | none => .error .badHandle
    | some c =>
      if s.driver.close = 0 then .error (.nullCall .close)
      else
        .ok
          { s with
            world := sys.call_db_close s.driver.close s.world c.db
            heap := store s.heap conn none
            trace := s.trace ++ [Event.db_close s.driver.close c.db, Event.free conn] }
  else .ok s

/-- The string terminator. -/
def NUL : Char := Char.ofNat 0

/-- The string a buffer holds: its characters up to the first terminator. -/
def cstr (buf : List Char) : List Char :=
  buf.takeWhile (fun c => c != NUL)

/-- `strcspn(buf, reject)`: how many characters the string in `buf` has before
the first one that is in `reject`.  The scan stops at the terminator; when the
buffer has neither, the result is the length of the buffer, where the real scan
would leave it. -/
def strcspn (buf : List Char) (reject : List Char) : Nat :=
  (buf.takeWhile (fun c => c != NUL && !reject.contains c)).length

/-- `myapp_read_input` (lines 97-105).  The result is the return value and the
contents of `buf` afterwards. -/
def myapp_read_input {W : Type} (sys : Sys W) (s : State W) (prompt : String)
    (buf : List Char) (bufsize : Int) : Except Fault ((Int × List Char) × State W) :=
  if s.driver.readline = 0 then .error (.nullCall .readline)
  else
    let r := sys.call_read_line s.driver.readline s.world buf bufsize s.driver.stdin_handle
    let buf1 := r.2.1
    let s1 : State W :=
      { s with
        world := r.2.2
        trace := s.trace ++
          [Event.printf "%s" prompt,
           Event.read_line s.driver.readline bufsize s.driver.stdin_handle] }
    if r.1 = 0 then .ok ((-1, buf1), s1)
    else
      let n := strcspn buf1 ['\n']
      if n < buf1.length then .ok ((0, buf1.set n NUL), s1)
      else .error .overrun

/-- The width of `unsigned long` on the LP64 targets that have `libsqlite3.so`. -/
def ULONG_BITS : Nat := 64

/-- `myapp_format` (lines 107-109).  The result is the return value and the
contents of `dst` afterwards. -/
def myapp_format {W : Type} (sys : Sys W) (s : State W) (dst : List Char) (dstsize : Int)
    (fmt : String) (value : String) : Except Fault ((Int × List Char) × State W) :=
  if s.driver.format = 0 then .error (.nullCall .format)
  else
    let size := (dstsize % 2 ^ ULONG_BITS).toNat
    let r := sys.call_formatter s.driver.format s.world dst size fmt value
    .ok ((r.1, r.2.1),
      { s with
        world := r.2.2
        trace := s.trace ++ [Event.formatter s.driver.format size fmt value] })

/-! ## The formatting facility behind the format slot -/

/-- Modelled from the spec: the expansion of a template by the string-formatting
facility the format slot resolves to (`snprintf` of the C library, which is not
part of the repository).  `%s` takes the next substitution value as it is, `%%`
is a percent sign, every other character stands for itself; a conversion this
does not cover, or one without a value, has no result.  `pending` says that the
previous character was an unfinished `%`. -/
def render (pending : Bool) : List Char → List String → Option (List Char)
  | [], _ => if pending then none else some []
  | c :: rest, args =>
    if pending then
      if c = 's' then
        match args with
        | [] => none
        | a :: more => (render false rest more).map (fun out => a.data ++ out)
      else if c = '%' then (render false rest args).map (fun out => '%' :: out)
      else none
    else if c = '%' then render true rest args
    else (render false rest args).map (fun out => c :: out)

/-- Modelled from the spec: the string-formatting facility the format slot
resolves to (`snprintf` of the C library, which is not part of the repository),
"bounded/truncating string formatting": at most `size - 1` characters of the
expansion and a terminator are written to the start of `dst`, nothing when
`size` is `0`; the result is the length of the whole expansion.  There is no
result when the template has none or when the write would pass the end of
`dst`. -/
def snprintf (dst : List Char) (size : Nat) (fmt : String) (args : List String) :
    Option (Int × List Char) :=
  match render false fmt.data args with
  | none => none
  | some out =>
    if size = 0 then some (out.length, dst)
    else
      let written := out.take (size - 1) ++ [NUL]
      if written.length ≤ dst.length then
        some (out.length, written ++ dst.drop written.length)
      else none

/-- The code at address `fn` formats one value the way `snprintf` does. -/
def FormatsLikeSnprintf {W : Type} (sys : Sys W) (fn : Ptr) : Prop :=
  ∀ (w : W) (dst : List Char) (size : Nat) (fmt value : String) (r : Int × List Char),
    snprintf dst size fmt [value] = some r →
      (sys.call_formatter fn w dst size fmt value).1 = r.1 ∧
      (sys.call_formatter fn w dst size fmt value).2.1 = r.2

/-! ## The vocabulary of the resolution properties -/

/-- The candidate library identifiers, in the order in which they are tried. -/
def candidates : List String := ["libsqlite3.so", "libsqlite3.so.0"]

/-- The handle of the first candidate that loads, `0` when none does. -/
def firstLoadable {W : Type} (sys : Sys W) : Ptr :=
  match candidates.find? (fun name => sys.dlopen name != 0) with
  | some name => sys.dlopen name
  | none => 0

/-- The five database-capability slots. -/
def dbSlots : List Slot := [.open_, .exec, .close, .freemem, .errmsg]

/-- The symbol name `mydb_init` looks up for a slot. -/
def symbolOf : Slot → String
  | .open_ => "sqlite3_open"
  | .exec => "sqlite3_exec"
  | .close => "sqlite3_close"
  | .freemem => "sqlite3_free"
  | .errmsg => "sqlite3_errmsg"
  | .readline => "fgets"
  | .format => "snprintf"

/-- An execution that makes no call through an unresolved slot. -/
def NeverCallsUnresolved {α : Type} (r : Except Fault α) : Prop :=
  ∀ slot, r ≠ .error (.nullCall slot)

/-! ## Concrete environments

A small process to run the wrappers in.  The state behind the function
pointers is the list of lines still waiting on standard input. -/

/-- Symbols of the database library of the concrete environments. -/
def sqliteSymbol (name : String) : Ptr :=
  if name = "sqlite3_open" then 11
  else if name = "sqlite3_exec" then 12
  else if name = "sqlite3_close" then 13
  else if name = "sqlite3_free" then 14
  else if name = "sqlite3_errmsg" then 15
  else 0

/-- Symbols of the C library of the concrete environments. -/
def libcSymbol (name : String) : Ptr :=
  if name = "fgets" then 21
  else if name = "snprintf" then 22
  else 0

/-- A process in which only the second candidate name loads, the library has
every symbol, and the default namespace (handle `0`, as on glibc) has the C
library only.  The database opens `users.db` and nothing else, and rejects the
statement `NOT VALID SQL`. -/
def demoSys : Sys (List (List Char)) where
  dlopen name := if name = "libsqlite3.so.0" then 1 else 0
  dlsym handle name :=
    if handle = 1 then sqliteSymbol name
    else if handle = 0 then libcSymbol name
    else 0
  RTLD_DEFAULT := 0
  stdin := 3
  malloc w := (1000, w)
  call_db_open _ w path := if path = "users.db" then (0, 7, w) else (14, 0, w)
  call_db_exec _ w _ sql _ _ :=
    if sql = "NOT VALID SQL" then (1, ⟨500, "near NOT: syntax error"⟩, w)
    else (0, ⟨0, ""⟩, w)
  call_db_close _ w _ := w
  call_db_free _ w _ := w
  call_db_errmsg _ w _ := (⟨600, "unable to open database file"⟩, w)
  call_read_line _ w buf size _ :=
    match w with
    | [] => (0, buf, [])
    | line :: rest =>
      let text := line.take (size.toNat - 1) ++ [NUL]
      (1, text ++ buf.drop text.length, rest)
  call_formatter _ w dst size fmt value :=
    match snprintf dst size fmt [value] with
    | some r => (r.1, r.2, w)
    | none => (-1, dst, w)

/-- The process of `demoSys` after `mydb_init`, with `bob` typed on standard
input. -/
def demoReady : State (List (List Char)) :=
  mydb_init demoSys (State.initial ["bob\n".data])

/-- The state of `demoReady` with a live handle at address `1000`. -/
def demoOpen : State (List (List Char)) :=
  { demoReady with heap := store demoReady.heap 1000 (some ⟨7⟩) }

/-- The state of `demoOpen` with standard input at its end. -/
def demoEof : State (List (List Char)) :=
  { demoOpen with world := [] }

/-- A process like `demoSys` whose first candidate loads a library without the
symbol `sqlite3_errmsg`. -/
def stubSys : Sys (List (List Char)) :=
  { demoSys with
    dlopen := fun name => if name = "libsqlite3.so" then 2 else 0
    dlsym := fun handle name =>
      if handle = 2 then (if name = "sqlite3_errmsg" then 0 else sqliteSymbol name)
      else if handle = 0 then libcSymbol name
      else 0 }

/-- A process like `demoSys` in which no candidate loads. -/
def bareSys : Sys (List (List Char)) :=
  { demoSys with dlopen := fun _ => 0 }

/-- A process in which no candidate loads while the database library is already
part of the default namespace (linked into the program or preloaded), which is
what the null handle stands for (`RTLD_DEFAULT` is `0`, as on glibc). -/
def preloadedSys : Sys (List (List Char)) :=
  { demoSys with
    dlopen := fun _ => 0
    dlsym := fun handle name =>
      if handle = 0 then (if libcSymbol name = 0 then sqliteSymbol name else libcSymbol name)
      else 0 }

/-! # Properties -/

/-! ## `mydb_exec` -/

/-- What `mydb_exec` computes when the execute call returns `0`. -/
theorem mydb_exec_of_accepted {W : Type} (sys : Sys W) (s : State W) (conn : Ptr)
    (c : mydb_conn) (sql : String) (hlive : s.heap conn = some c)
    (hexec : s.driver.exec ≠ 0)
    (hrc : (sys.call_db_exec s.driver.exec s.world c.db sql 0 0).1 = 0) :
    mydb_exec sys s conn sql =
      .ok (0,
        { s with
          world := (sys.call_db_exec s.driver.exec s.world c.db sql 0 0).2.2
          trace := s.trace ++ [Event.db_exec s.driver.exec c.db sql 0 0] }) := by
  simp [mydb_exec, hlive, hexec, hrc]

/-- What `mydb_exec` computes when the execute call returns non-zero. -/
theorem mydb_exec_of_rejected {W : Type} (sys : Sys W) (s : State W) (conn : Ptr)
    (c : mydb_conn) (sql : String) (hlive : s.heap conn = some c)
    (hexec : s.driver.exec ≠ 0) (hfree : s.driver.freemem ≠ 0)
    (hrc : (sys.call_db_exec s.driver.exec s.world c.db sql 0 0).1 ≠ 0) :
    mydb_exec sys s conn sql =
      .ok (-1,
        { s with
          world := sys.call_db_free s.driver.freemem
            (sys.call_db_exec s.driver.exec s.world c.db sql 0 0).2.2
            (sys.call_db_exec s.driver.exec s.world c.db sql 0 0).2.1.addr
          trace := s.trace ++
            [Event.db_exec s.driver.exec c.db sql 0 0,
             Event.fprintf_stderr "SQL error: %s\n"
               (sys.call_db_exec s.driver.exec s.world c.db sql 0 0).2.1,
             Event.db_free s.driver.freemem
               (sys.call_db_exec s.driver.exec s.world c.db sql 0 0).2.1.addr] }) := by
  simp [mydb_exec, hlive, hexec, hfree, hrc]

/-- C1: on a live handle, with the execute and free-buffer slots resolved,
`mydb_exec` calls the execute-statement slot exactly once, with the database
reference of the handle, the statement as it was given, and a null callback and
a null context; it returns `0` when that call returns `0` and `-1` when it
returns anything else. -/
theorem mydb_exec_forwards_statement {W : Type} (sys : Sys W) (s : State W) (conn : Ptr)
    (c : mydb_conn) (sql : String) (hlive : s.heap conn = some c)
    (hexec : s.driver.exec ≠ 0) (hfree : s.driver.freemem ≠ 0) :
    ∃ s' new,
      mydb_exec sys s conn sql =
        .ok ((if (sys.call_db_exec s.driver.exec s.world c.db sql 0 0).1 = 0 then 0 else -1), s') ∧
      s'.trace = s.trace ++ new ∧
      callsThrough .exec new = [Event.db_exec s.driver.exec c.db sql 0 0] := by
  by_cases hrc : (sys.call_db_exec s.driver.exec s.world c.db sql 0 0).1 = 0
  · rw [mydb_exec_of_accepted sys s conn c sql hlive hexec hrc, if_pos hrc]
    exact ⟨_, [Event.db_exec s.driver.exec c.db sql 0 0], rfl, rfl, by
      simp [callsThrough, Event.slot]⟩
  · rw [mydb_exec_of_rejected sys s conn c sql hlive hexec hfree hrc, if_neg hrc]
    exact ⟨_, _, rfl, rfl, by simp [callsThrough, Event.slot]⟩

/-- Witness of C1: the concrete process, a live handle, a rejected statement. -/
theorem mydb_exec_forwards_statement_witness :
    ∃ s' new,
      mydb_exec demoSys demoOpen 1000 "NOT VALID SQL" = .ok (-1, s') ∧
      s'.trace = demoOpen.trace ++ new ∧
      callsThrough .exec new = [Event.db_exec 12 7 "NOT VALID SQL" 0 0] :=
  mydb_exec_forwards_statement demoSys demoOpen 1000 ⟨7⟩ "NOT VALID SQL"
    (by decide) (by decide) (by decide)

/-- C2: when the execute call on a live handle returns non-zero (execute and
free-buffer slots resolved), `mydb_exec` returns `-1`, writes exactly one
message to the diagnostic stream (the text the call handed back), passes that
buffer exactly once to the free-buffer slot, and leaves the handle and the
driver table as they were; a later `mydb_exec` on the same handle with a
statement the execute call accepts returns `0`. -/
theorem mydb_exec_failure_keeps_handle {W : Type} (sys : Sys W) (s : State W) (conn : Ptr)
    (c : mydb_conn) (sql : String) (hlive : s.heap conn = some c)
    (hexec : s.driver.exec ≠ 0) (hfree : s.driver.freemem ≠ 0)
    (hrc : (sys.call_db_exec s.driver.exec s.world c.db sql 0 0).1 ≠ 0) :
    ∃ s' new,
      mydb_exec sys s conn sql = .ok (-1, s') ∧
      s'.trace = s.trace ++ new ∧
      logged new =
        [Event.fprintf_stderr "SQL error: %s\n"
          (sys.call_db_exec s.driver.exec s.world c.db sql 0 0).2.1] ∧
      callsThrough .freemem new =
        [Event.db_free s.driver.freemem
          (sys.call_db_exec s.driver.exec s.world c.db sql 0 0).2.1.addr] ∧
      s'.heap = s.heap ∧ s'.driver = s.driver ∧
      ∀ sql2, (sys.call_db_exec s'.driver.exec s'.world c.db sql2 0 0).1 = 0 →
        ∃ s'', mydb_exec sys s' conn sql2 = .ok (0, s'') := by
  rw [mydb_exec_of_rejected sys s conn c sql hlive hexec hfree hrc]
  refine ⟨_, _, rfl, rfl, by simp [logged, Event.isLog], by simp [callsThrough, Event.slot],
    rfl, rfl, ?_⟩
  intro sql2 h2
  exact ⟨_, mydb_exec_of_accepted sys _ conn c sql2 hlive hexec h2⟩

/-- Witness of C2: the concrete process rejects `NOT VALID SQL`. -/
theorem mydb_exec_failure_keeps_handle_witness :
    ∃ s' new,
      mydb_exec demoSys demoOpen 1000 "NOT VALID SQL" = .ok (-1, s') ∧
      s'.trace = demoOpen.trace ++ new ∧
      logged new = [Event.fprintf_stderr "SQL error: %s\n" ⟨500, "near NOT: syntax error"⟩] ∧
      callsThrough .freemem new = [Event.db_free 14 500] ∧
      s'.heap = demoOpen.heap ∧ s'.driver = demoOpen.driver ∧
      ∀ sql2, (demoSys.call_db_exec s'.driver.exec s'.world 7 sql2 0 0).1 = 0 →
        ∃ s'', mydb_exec demoSys s' 1000 sql2 = .ok (0, s'') :=
  mydb_exec_failure_keeps_handle demoSys demoOpen 1000 ⟨7⟩ "NOT VALID SQL"
    (by decide) (by decide) (by decide) (by decide)

/-! ## `mydb_open` -/

/-- What `mydb_open` computes when the allocation succeeds and the open call
returns non-zero. -/
theorem mydb_open_of_refused {W : Type} (sys : Sys W) (s : State W) (db_path : String)
    (hmem : (sys.malloc s.world).1 ≠ 0)
    (hopen : s.driver.open_ ≠ 0) (herr : s.driver.errmsg ≠ 0)
    (hrc : (sys.call_db_open s.driver.open_ (sys.malloc s.world).2 db_path).1 ≠ 0) :
    mydb_open sys s db_path =
      .ok (0,
        { s with
          world := (sys.call_db_errmsg s.driver.errmsg
            (sys.call_db_open s.driver.open_ (sys.malloc s.world).2 db_path).2.2
            (sys.call_db_open s.driver.open_ (sys.malloc s.world).2 db_path).2.1).2
          heap := store (store s.heap (sys.malloc s.world).1
            (some ⟨(sys.call_db_open s.driver.open_ (sys.malloc s.world).2 db_path).2.1⟩))
            (sys.malloc s.world).1 none
          trace := s.trace ++
            [Event.malloc (sys.malloc s.world).1,
             Event.db_open s.driver.open_ db_path,
             Event.db_errmsg s.driver.errmsg
               (sys.call_db_open s.driver.open_ (sys.malloc s.world).2 db_path).2.1,
             Event.fprintf_stderr "Cannot open database: %s\n"
               (sys.call_db_errmsg s.driver.errmsg
                 (sys.call_db_open s.driver.open_ (sys.malloc s.world).2 db_path).2.2
                 (sys.call_db_open s.driver.open_ (sys.malloc s.world).2 db_path).2.1).1,
             Event.free (sys.malloc s.world).1] }) := by
  simp [mydb_open, hmem, hopen, herr, hrc]

/-- C3: when the allocation succeeds and the open call returns non-zero (open
and fetch-error-message slots resolved), `mydb_open` returns `NULL`, writes
exactly one message to the diagnostic stream, whose text is what the single
call through the fetch-error-message slot returned, calls neither the execute
nor the close slot, and leaves no handle: the storage it allocated is released
and every other address of the heap is as before. -/
theorem mydb_open_failure {W : Type} (sys : Sys W) (s : State W) (db_path : String)
    (hmem : (sys.malloc s.world).1 ≠ 0)
    (hopen : s.driver.open_ ≠ 0) (herr : s.driver.errmsg ≠ 0)
    (hrc : (sys.call_db_open s.driver.open_ (sys.malloc s.world).2 db_path).1 ≠ 0) :
    ∃ s' new,
      mydb_open sys s db_path = .ok (0, s') ∧
      s'.trace = s.trace ++ new ∧
      callsThrough .errmsg new =
        [Event.db_errmsg s.driver.errmsg
          (sys.call_db_open s.driver.open_ (sys.malloc s.world).2 db_path).2.1] ∧
      logged new =
        [Event.fprintf_stderr "Cannot open database: %s\n"
          (sys.call_db_errmsg s.driver.errmsg
            (sys.call_db_open s.driver.open_ (sys.malloc s.world).2 db_path).2.2
            (sys.call_db_open s.driver.open_ (sys.malloc s.world).2 db_path).2.1).1] ∧
      callsThrough .exec new = [] ∧ callsThrough .close new = [] ∧
      s'.heap (sys.malloc s.world).1 = none ∧
      ∀ q, q ≠ (sys.malloc s.world).1 → s'.heap q = s.heap q := by
  rw [mydb_open_of_refused sys s db_path hmem hopen herr hrc]
  refine ⟨_, _, rfl, rfl, by simp [callsThrough, Event.slot], by simp [logged, Event.isLog],
    by simp [callsThrough, Event.slot], by simp [callsThrough, Event.slot],
    by simp [store], ?_⟩
  intro q hq
  simp [store, hq]

/-- Witness of C3: the concrete process cannot open `/nonexistent/users.db`. -/
theorem mydb_open_failure_witness :
    ∃ s' new,
      mydb_open demoSys demoReady "/nonexistent/users.db" = .ok (0, s') ∧
      s'.trace = demoReady.trace ++ new ∧
      callsThrough .errmsg new = [Event.db_errmsg 15 0] ∧
      logged new =
        [Event.fprintf_stderr "Cannot open database: %s\n"
          ⟨600, "unable to open database file"⟩] ∧
      callsThrough .exec new = [] ∧ callsThrough .close new = [] ∧
      s'.heap 1000 = none ∧
      ∀ q, q ≠ 1000 → s'.heap q = demoReady.heap q :=
  mydb_open_failure demoSys demoReady "/nonexistent/users.db"
    (by decide) (by decide) (by decide) (by decide)

/-! ## `mydb_close` -/

/-- C4: `mydb_close` on `NULL` returns normally and leaves the whole state as it
was, whatever the driver table holds: no slot is called, nothing is written,
nothing is released. -/
theorem mydb_close_null_is_noop {W : Type} (sys : Sys W) (s : State W) :
    mydb_close sys s 0 = .ok s := by
  simp [mydb_close]

/-! ## `myapp_read_input` -/

/-- Storing a terminator where `strcspn` stops cuts the string at its first
line terminator. -/
theorem cstr_set_strcspn (buf : List Char) (h : strcspn buf ['\n'] < buf.length) :
    cstr (buf.set (strcspn buf ['\n']) NUL) = (cstr buf).takeWhile (fun c => c != '\n') := by
  induction buf with
  | nil => simp [strcspn] at h
  | cons c rest ih =>
    by_cases hc : c = NUL
    · subst hc
      simp [strcspn, cstr]
    · by_cases hn : c = '\n'
      · subst hn
        simp [strcspn, cstr, hc]
      · have hlen : strcspn (c :: rest) ['\n'] = strcspn rest ['\n'] + 1 := by
          simp [strcspn, hc, hn]
        rw [hlen] at h ⊢
        have h' : strcspn rest ['\n'] < rest.length := by simpa using h
        have ih' := ih h'
        simp only [cstr] at ih' ⊢
        simp [List.set, hc, hn, ih']

/-- Cutting a line at its first line terminator removes the terminator it ends
with, when the line has none before its last character. -/
theorem takeWhile_of_line (l : List Char) (h : '\n' ∉ l.dropLast) :
    l.takeWhile (fun c => c != '\n') =
      if l.getLast? = some '\n' then l.dropLast else l := by
  induction l with
  | nil => simp
  | cons c rest ih =>
    cases rest with
    | nil =>
      by_cases hn : c = '\n'
      · subst hn; simp
      · simp [hn]
    | cons d more =>
      have hc : c ≠ '\n' := by
        intro hc; apply h; simp [List.dropLast, hc]
      have hrest : '\n' ∉ (d :: more).dropLast := by
        intro hmem; apply h; simp only [List.dropLast]; exact List.mem_cons_of_mem _ hmem
      have ih' := ih hrest
      rw [List.takeWhile_cons]
      simp only [bne_iff_ne, ne_eq, hc, not_false_eq_true, decide_True, ite_true]
      rw [ih']
      have hg : (c :: d :: more).getLast? = (d :: more).getLast? := by
        simp [List.getLast?_cons_cons]
      rw [hg]
      split <;> simp [List.dropLast]

/-- A buffer that holds a terminator is longer than the scan of `strcspn`. -/
theorem strcspn_lt_of_terminated (buf : List Char) (reject : List Char) (h : NUL ∈ buf) :
    strcspn buf reject < buf.length := by
  unfold strcspn
  induction buf with
  | nil => simp at h
  | cons c rest ih =>
    rw [List.takeWhile_cons]
    split
    · rename_i hp
      have hc : c ≠ NUL := by
        intro hc; subst hc; simp at hp
      have hrest : NUL ∈ rest := by
        rcases List.mem_cons.mp h with h | h
        · exact absurd h.symm hc
        · exact h
      simpa using ih hrest
    · simp

/-- What `myapp_read_input` computes when the read-line call reports no data. -/
theorem myapp_read_input_of_no_data {W : Type} (sys : Sys W) (s : State W) (prompt : String)
    (buf : List Char) (bufsize : Int) (hslot : s.driver.readline ≠ 0)
    (hret : (sys.call_read_line s.driver.readline s.world buf bufsize s.driver.stdin_handle).1 = 0) :
    myapp_read_input sys s prompt buf bufsize =
      .ok ((-1, (sys.call_read_line s.driver.readline s.world buf bufsize
                  s.driver.stdin_handle).2.1),
        { s with
          world := (sys.call_read_line s.driver.readline s.world buf bufsize
                      s.driver.stdin_handle).2.2
          trace := s.trace ++
            [Event.printf "%s" prompt,
             Event.read_line s.driver.readline bufsize s.driver.stdin_handle] }) := by
  simp [myapp_read_input, hslot, hret]

/-- What `myapp_read_input` computes when the read-line call reports data. -/
theorem myapp_read_input_of_data {W : Type} (sys : Sys W) (s : State W) (prompt : String)
    (buf : List Char) (bufsize : Int) (hslot : s.driver.readline ≠ 0)
    (hret : (sys.call_read_line s.driver.readline s.world buf bufsize s.driver.stdin_handle).1 ≠ 0) :
    myapp_read_input sys s prompt buf bufsize =
      if strcspn (sys.call_read_line s.driver.readline s.world buf bufsize
            s.driver.stdin_handle).2.1 ['\n'] <
          (sys.call_read_line s.driver.readline s.world buf bufsize
            s.driver.stdin_handle).2.1.length then
        .ok ((0, (sys.call_read_line s.driver.readline s.world buf bufsize
                    s.driver.stdin_handle).2.1.set
                  (strcspn (sys.call_read_line s.driver.readline s.world buf bufsize
                    s.driver.stdin_handle).2.1 ['\n']) NUL),
          { s with
            world := (sys.call_read_line s.driver.readline s.world buf bufsize
                        s.driver.stdin_handle).2.2
            trace := s.trace ++
              [Event.printf "%s" prompt,
               Event.read_line s.driver.readline bufsize s.driver.stdin_handle] })
      else .error .overrun := by
  simp [myapp_read_input, hslot, hret]

/-- C5: when the read-line slot (resolved) reports data and leaves a line in the
buffer, that is a terminated string with no line terminator before its last
character, `myapp_read_input` returns `0` and the buffer holds that line without
the line terminator it ends with, or the line as it is when it ends with none;
when the line is `bob` followed by a line terminator the buffer holds `bob`. -/
theorem myapp_read_input_strips_terminator {W : Type} (sys : Sys W) (s : State W)
    (prompt : String) (buf : List Char) (bufsize : Int)
    (ret : Ptr) (buf1 : List Char) (w1 : W)
    (hslot : s.driver.readline ≠ 0)
    (hcall : sys.call_read_line s.driver.readline s.world buf bufsize s.driver.stdin_handle
      = (ret, buf1, w1))
    (hret : ret ≠ 0) (hstr : NUL ∈ buf1) (hline : '\n' ∉ (cstr buf1).dropLast) :
    ∃ buf2 s',
      myapp_read_input sys s prompt buf bufsize = .ok ((0, buf2), s') ∧
      cstr buf2 = (if (cstr buf1).getLast? = some '\n' then (cstr buf1).dropLast else cstr buf1) ∧
      (cstr buf1 = "bob\n".data → cstr buf2 = "bob".data) := by
  have hlt := strcspn_lt_of_terminated buf1 ['\n'] hstr
  have hcut := cstr_set_strcspn buf1 hlt
  rw [takeWhile_of_line _ hline] at hcut
  have hcomp := myapp_read_input_of_data sys s prompt buf bufsize hslot (by rw [hcall]; exact hret)
  rw [hcall] at hcomp
  simp only [hlt, if_true] at hcomp
  refine ⟨_, _, hcomp, hcut, ?_⟩
  intro hbob
  rw [hcut, hbob]
  decide

/-- Witness of C5: the concrete process reads `bob` into a 16-byte buffer. -/
theorem myapp_read_input_strips_terminator_witness :
    ∃ buf2 s',
      myapp_read_input demoSys demoOpen "Enter username to look up: "
        (List.replicate 16 'x') 16 = .ok ((0, buf2), s') ∧
      cstr buf2 =
        (if (cstr ("bob\n".data ++ NUL :: List.replicate 11 'x')).getLast? = some '\n'
          then (cstr ("bob\n".data ++ NUL :: List.replicate 11 'x')).dropLast
          else cstr ("bob\n".data ++ NUL :: List.replicate 11 'x')) ∧
      (cstr ("bob\n".data ++ NUL :: List.replicate 11 'x') = "bob\n".data →
        cstr buf2 = "bob".data) :=
  myapp_read_input_strips_terminator demoSys demoOpen "Enter username to look up: "
    (List.replicate 16 'x') 16 1 ("bob\n".data ++ NUL :: List.replicate 11 'x') []
    (by decide) (by decide) (by decide) (by decide) (by decide)

/-- C6: with the read-line slot resolved, `myapp_read_input` returns `-1`
exactly when the call through the slot returns `NULL`; in that case the buffer
is as the call left it and the result is not a success. -/
theorem myapp_read_input_end_of_input {W : Type} (sys : Sys W) (s : State W)
    (prompt : String) (buf : List Char) (bufsize : Int)
    (hslot : s.driver.readline ≠ 0) :
    ((∃ b s', myapp_read_input sys s prompt buf bufsize = .ok ((-1, b), s')) ↔
      (sys.call_read_line s.driver.readline s.world buf bufsize s.driver.stdin_handle).1 = 0) ∧
    ((sys.call_read_line s.driver.readline s.world buf bufsize s.driver.stdin_handle).1 = 0 →
      (∃ s', myapp_read_input sys s prompt buf bufsize =
        .ok ((-1, (sys.call_read_line s.driver.readline s.world buf bufsize
                    s.driver.stdin_handle).2.1), s')) ∧
      ∀ b s', myapp_read_input sys s prompt buf bufsize ≠ .ok ((0, b), s')) := by
  refine ⟨⟨?_, ?_⟩, ?_⟩
  · rintro ⟨b, s', h⟩
    by_contra hret
    rw [myapp_read_input_of_data sys s prompt buf bufsize hslot hret] at h
    split at h <;> simp at h
  · intro hret
    exact ⟨_, _, myapp_read_input_of_no_data sys s prompt buf bufsize hslot hret⟩
  · intro hret
    refine ⟨⟨_, myapp_read_input_of_no_data sys s prompt buf bufsize hslot hret⟩, ?_⟩
    intro b s' h
    rw [myapp_read_input_of_no_data sys s prompt buf bufsize hslot hret] at h
    simp at h

/-- Witness of C6: the concrete process with standard input at its end. -/
theorem myapp_read_input_end_of_input_witness :
    ((∃ b s', myapp_read_input demoSys demoEof "> " (List.replicate 8 'x') 8
        = .ok ((-1, b), s')) ↔
      (demoSys.call_read_line 21 [] (List.replicate 8 'x') 8 3).1 = 0) ∧
    ((demoSys.call_read_line 21 [] (List.replicate 8 'x') 8 3).1 = 0 →
      (∃ s', myapp_read_input demoSys demoEof "> " (List.replicate 8 'x') 8 =
        .ok ((-1, (demoSys.call_read_line 21 [] (List.replicate 8 'x') 8 3).2.1), s')) ∧
      ∀ b s', myapp_read_input demoSys demoEof "> " (List.replicate 8 'x') 8
        ≠ .ok ((0, b), s')) :=
  myapp_read_input_end_of_input demoSys demoEof "> " (List.replicate 8 'x') 8 (by decide)

/-! ## `myapp_format` -/

/-- A template without a percent sign expands to itself. -/
theorem render_plain (post : List Char) (args : List String) (h : '%' ∉ post) :
    render false post args = some post := by
  induction post with
  | nil => simp [render]
  | cons c rest ih =>
    have hc : c ≠ '%' := by
      intro hc; apply h; simp [hc]
    have hrest : '%' ∉ rest := by
      intro hmem; exact h (List.mem_cons_of_mem _ hmem)
    simp [render, hc, ih hrest]

/-- A template with one `%s` and no other percent sign expands to the template
with the value in the place of `%s`. -/
theorem render_single (pre post : List Char) (value : String)
    (hpre : '%' ∉ pre) (hpost : '%' ∉ post) :
    render false (pre ++ '%' :: 's' :: post) [value] = some (pre ++ value.data ++ post) := by
  induction pre with
  | nil => simp [render, render_plain post [] hpost]
  | cons c rest ih =>
    have hc : c ≠ '%' := by
      intro hc; apply hpre; simp [hc]
    have hrest : '%' ∉ rest := by
      intro hmem; exact hpre (List.mem_cons_of_mem _ hmem)
    simp [render, hc, ih hrest]

/-- When the expansion is shorter than the bound and than the buffer, `snprintf`
writes all of it and a terminator. -/
theorem snprintf_fits (dst : List Char) (size : Nat) (fmt : String) (args : List String)
    (out : List Char) (hr : render false fmt.data args = some out)
    (hsize : out.length < size) (hdst : out.length < dst.length) :
    snprintf dst size fmt args =
      some ((out.length : Int), out ++ NUL :: dst.drop (out.length + 1)) := by
  have h0 : size ≠ 0 := by omega
  have htake : out.take (size - 1) = out := List.take_of_length_le (by omega)
  have hlen : out.length + 1 ≤ dst.length := hdst
  simp [snprintf, hr, h0, htake, hlen]

/-- The conversion of an `int` that is not negative to `unsigned long` keeps
its value. -/
theorem ulong_of_int (n : Int) (h0 : 0 ≤ n) (hmax : n ≤ 2147483647) :
    (n % 2 ^ ULONG_BITS).toNat = n.toNat := by
  have : n % 2 ^ ULONG_BITS = n := by
    apply Int.emod_eq_of_lt h0
    simp only [ULONG_BITS]
    omega
  rw [this]

/-- What `myapp_format` computes for a template with one `%s` when the format
slot holds `snprintf` and the result fits. -/
theorem myapp_format_of_single_conversion {W : Type} (sys : Sys W) (s : State W)
    (dst : List Char) (dstsize : Int) (pre post : List Char) (value : String)
    (hslot : s.driver.format ≠ 0) (hfmt : FormatsLikeSnprintf sys s.driver.format)
    (hpre : '%' ∉ pre) (hpost : '%' ∉ post)
    (hbound : ((pre ++ value.data ++ post).length : Int) < dstsize)
    (hint : dstsize ≤ 2147483647) (hbuf : dstsize ≤ dst.length) :
    ∃ s',
      myapp_format sys s dst dstsize (String.mk (pre ++ '%' :: 's' :: post)) value =
        .ok ((((pre ++ value.data ++ post).length : Int),
              pre ++ value.data ++ post ++
                NUL :: dst.drop ((pre ++ value.data ++ post).length + 1)), s') := by
  have h0 : 0 ≤ dstsize := le_trans (Int.ofNat_nonneg _) (le_of_lt hbound)
  have hcast := ulong_of_int dstsize h0 hint
  have hsize : (pre ++ value.data ++ post).length < dstsize.toNat := by omega
  have hdst : (pre ++ value.data ++ post).length < dst.length := by omega
  have hsn := snprintf_fits dst dstsize.toNat (String.mk (pre ++ '%' :: 's' :: post)) [value]
    (pre ++ value.data ++ post) (render_single pre post value hpre hpost) hsize hdst
  have hcall := hfmt s.world dst dstsize.toNat (String.mk (pre ++ '%' :: 's' :: post)) value
    _ hsn
  refine ⟨{ s with
    world := (sys.call_formatter s.driver.format s.world dst dstsize.toNat
      (String.mk (pre ++ '%' :: 's' :: post)) value).2.2
    trace := s.trace ++ [Event.formatter s.driver.format dstsize.toNat
      (String.mk (pre ++ '%' :: 's' :: post)) value] }, ?_⟩
  simp only [myapp_format, hslot, if_false, hcast]
  rw [hcall.1, hcall.2]

/-- A string followed by a terminator is the string the buffer holds. -/
theorem cstr_append_terminator (text rest : List Char) (h : NUL ∉ text) :
    cstr (text ++ NUL :: rest) = text := by
  induction text with
  | nil => simp [cstr]
  | cons c more ih =>
    have hc : c ≠ NUL := by
      intro hc; apply h; simp [hc]
    have hmore : NUL ∉ more := by
      intro hmem; exact h (List.mem_cons_of_mem _ hmem)
    have := ih hmore
    simp only [cstr] at this ⊢
    simp [hc, this]

/-- C9: when the format slot is resolved to code that formats as `snprintf`
does (the facility is modelled from the spec, see `snprintf`), the template is `pre`, `%s`, `post` with no other percent sign, and the
bound `dstsize` (an `int` within the buffer) exceeds the length of the result,
`myapp_format` returns that length and leaves in `dst` exactly `pre`, the
characters of the value as they are, `post`, and a terminator.  For the
template `SELECT * FROM users WHERE name = '%s';` and the value `' OR 1=1 --`
with a bound of 512 the buffer holds
`SELECT * FROM users WHERE name = '' OR 1=1 --';`. -/
theorem myapp_format_substitutes_verbatim {W : Type} (sys : Sys W) (s : State W)
    (dst : List Char) (dstsize : Int) (pre post : List Char) (value : String)
    (hslot : s.driver.format ≠ 0) (hfmt : FormatsLikeSnprintf sys s.driver.format)
    (hpre : '%' ∉ pre) (hpost : '%' ∉ post)
    (hbound : ((pre ++ value.data ++ post).length : Int) < dstsize)
    (hint : dstsize ≤ 2147483647) (hbuf : dstsize ≤ dst.length) :
    (∃ s',
      myapp_format sys s dst dstsize (String.mk (pre ++ '%' :: 's' :: post)) value =
        .ok ((((pre ++ value.data ++ post).length : Int),
              pre ++ value.data ++ post ++
                NUL :: dst.drop ((pre ++ value.data ++ post).length + 1)), s')) ∧
    (∀ query : List Char, query.length = 512 →
      ∃ out s',
        myapp_format sys s query 512 "SELECT * FROM users WHERE name = '%s';" "' OR 1=1 --" =
          .ok ((47, out), s') ∧
        cstr out = "SELECT * FROM users WHERE name = '' OR 1=1 --';".data) := by
  refine ⟨myapp_format_of_single_conversion sys s dst dstsize pre post value hslot hfmt hpre
    hpost hbound hint hbuf, ?_⟩
  intro query hq
  obtain ⟨s', h⟩ := myapp_format_of_single_conversion sys s query 512
    "SELECT * FROM users WHERE name = '".data "';".data "' OR 1=1 --" hslot hfmt
    (by decide) (by decide) (by decide) (by decide) (by rw [hq]; decide)
  refine ⟨_, s', h, ?_⟩
  exact cstr_append_terminator _ _ (by decide)

/-- The format slot of the concrete process holds `snprintf`. -/
theorem demoSys_formats_like_snprintf (fn : Ptr) : FormatsLikeSnprintf demoSys fn := by
  intro w dst size fmt value r h
  simp [demoSys, h]

/-- Witness of C9: the concrete process formats the query of `main.c` into a
buffer of 64 bytes. -/
theorem myapp_format_substitutes_verbatim_witness :
    (∃ s',
      myapp_format demoSys demoOpen (List.replicate 64 'x') 64
        (String.mk ("SELECT * FROM users WHERE name = '".data ++ '%' :: 's' :: "';".data))
        "' OR 1=1 --" =
        .ok (((("SELECT * FROM users WHERE name = '".data ++ "' OR 1=1 --".data
                  ++ "';".data).length : Int),
              "SELECT * FROM users WHERE name = '".data ++ "' OR 1=1 --".data ++ "';".data ++
                NUL :: (List.replicate 64 'x').drop
                  (("SELECT * FROM users WHERE name = '".data ++ "' OR 1=1 --".data
                    ++ "';".data).length + 1)), s')) ∧
    (∀ query : List Char, query.length = 512 →
      ∃ out s',
        myapp_format demoSys demoOpen query 512 "SELECT * FROM users WHERE name = '%s';"
          "' OR 1=1 --" = .ok ((47, out), s') ∧
        cstr out = "SELECT * FROM users WHERE name = '' OR 1=1 --';".data) :=
  myapp_format_substitutes_verbatim demoSys demoOpen (List.replicate 64 'x') 64
    "SELECT * FROM users WHERE name = '".data "';".data "' OR 1=1 --"
    (by decide) (demoSys_formats_like_snprintf _) (by decide) (by decide) (by decide)
    (by decide) (by decide)

/-! ## `mydb_init` -/

/-- What `mydb_init` stores in a database-capability slot. -/
theorem mydb_init_db_slot {W : Type} (sys : Sys W) (s : State W) (slot : Slot)
    (hslot : slot ∈ dbSlots) :
    (mydb_init sys s).driver.get slot =
      sys.dlsym
        (if sys.dlopen "libsqlite3.so" = 0 then sys.dlopen "libsqlite3.so.0"
          else sys.dlopen "libsqlite3.so")
        (symbolOf slot) := by
  simp only [dbSlots, List.mem_cons, List.mem_singleton, List.not_mem_nil, or_false] at hslot
  rcases hslot with h | h | h | h | h <;> subst h <;> rfl

/-- The library `mydb_init` uses is the first candidate that loads. -/
theorem firstLoadable_eq {W : Type} (sys : Sys W) :
    firstLoadable sys =
      if sys.dlopen "libsqlite3.so" = 0 then sys.dlopen "libsqlite3.so.0"
      else sys.dlopen "libsqlite3.so" := by
  by_cases h1 : sys.dlopen "libsqlite3.so" = 0
  · have b1 : (sys.dlopen "libsqlite3.so" != 0) = false := by simp [h1]
    by_cases h2 : sys.dlopen "libsqlite3.so.0" = 0
    · have b2 : (sys.dlopen "libsqlite3.so.0" != 0) = false := by simp [h2]
      simp only [firstLoadable, candidates, List.find?, b1, b2]
      simp [h1, h2]
    · have b2 : (sys.dlopen "libsqlite3.so.0" != 0) = true := by simp [h2]
      simp only [firstLoadable, candidates, List.find?, b1, b2]
      simp [h1]
  · have b1 : (sys.dlopen "libsqlite3.so" != 0) = true := by simp [h1]
    simp only [firstLoadable, candidates, List.find?, b1]
    simp [h1]

/-- C7 (as amended): when at least one candidate loads and the first candidate
that loads has the five symbols, `mydb_init` leaves none of the five
database-capability slots unresolved, and every one of them is the symbol of
the first candidate that loads, in the order `libsqlite3.so`,
`libsqlite3.so.0`. -/
theorem mydb_init_resolves_from_first_loadable {W : Type} (sys : Sys W) (s : State W)
    (hload : ∃ name ∈ candidates, sys.dlopen name ≠ 0)
    (hsyms : ∀ slot ∈ dbSlots, sys.dlsym (firstLoadable sys) (symbolOf slot) ≠ 0) :
    firstLoadable sys ≠ 0 ∧
    (∀ slot ∈ dbSlots, (mydb_init sys s).driver.get slot ≠ 0) ∧
    (∀ slot ∈ dbSlots,
      (mydb_init sys s).driver.get slot = sys.dlsym (firstLoadable sys) (symbolOf slot)) := by
  have huse : ∀ slot ∈ dbSlots,
      (mydb_init sys s).driver.get slot = sys.dlsym (firstLoadable sys) (symbolOf slot) := by
    intro slot hslot
    rw [mydb_init_db_slot sys s slot hslot, firstLoadable_eq]
  refine ⟨?_, ?_, huse⟩
  · rw [firstLoadable_eq]
    obtain ⟨name, hmem, hname⟩ := hload
    simp only [candidates, List.mem_cons, List.mem_singleton, List.not_mem_nil, or_false] at hmem
    by_cases h1 : sys.dlopen "libsqlite3.so" = 0
    · rcases hmem with h | h
      · subst h; exact absurd h1 hname
      · subst h; simpa [h1] using hname
    · simp [h1]
  · intro slot hslot
    rw [huse slot hslot]
    exact hsyms slot hslot

/-- Witness of C7 (as amended): in the concrete process the second candidate
loads and has the five symbols. -/
theorem mydb_init_resolves_from_first_loadable_witness :
    firstLoadable demoSys ≠ 0 ∧
    (∀ slot ∈ dbSlots, (mydb_init demoSys (State.initial [])).driver.get slot ≠ 0) ∧
    (∀ slot ∈ dbSlots,
      (mydb_init demoSys (State.initial [])).driver.get slot =
        demoSys.dlsym (firstLoadable demoSys) (symbolOf slot)) :=
  mydb_init_resolves_from_first_loadable demoSys (State.initial [])
    ⟨"libsqlite3.so.0", by decide, by decide⟩ (by decide)

/-- C7 as stated fails: the first candidate of `stubSys` loads, and `mydb_init`
leaves the fetch-error-message slot unresolved, because the library that loaded
has no `sqlite3_errmsg`. -/
theorem mydb_init_loadable_yet_unresolved :
    (∃ name ∈ candidates, stubSys.dlopen name ≠ 0) ∧
    ¬ (∀ slot ∈ dbSlots, (mydb_init stubSys (State.initial [])).driver.get slot ≠ 0) ∧
    (mydb_init stubSys (State.initial [])).driver.errmsg = 0 := by
  refine ⟨⟨"libsqlite3.so", by decide, by decide⟩, by decide, by decide⟩

/-- C8 (as amended): when no candidate loads, `mydb_init` looks the five database
symbols up with the null handle, so every database-capability slot holds what
`dlsym` returns for the null handle and the name of its symbol; the five slots
are all unresolved exactly when that lookup finds none of the five names. -/
theorem mydb_init_without_library {W : Type} (sys : Sys W) (s : State W)
    (hnone : ∀ name ∈ candidates, sys.dlopen name = 0) :
    (∀ slot ∈ dbSlots, (mydb_init sys s).driver.get slot = sys.dlsym 0 (symbolOf slot)) ∧
    ((∀ slot ∈ dbSlots, (mydb_init sys s).driver.get slot = 0) ↔
      ∀ slot ∈ dbSlots, sys.dlsym 0 (symbolOf slot) = 0) := by
  have h1 : sys.dlopen "libsqlite3.so" = 0 := hnone _ (by simp [candidates])
  have h2 : sys.dlopen "libsqlite3.so.0" = 0 := hnone _ (by simp [candidates])
  have huse : ∀ slot ∈ dbSlots,
      (mydb_init sys s).driver.get slot = sys.dlsym 0 (symbolOf slot) := by
    intro slot hslot
    rw [mydb_init_db_slot sys s slot hslot]
    simp [h1, h2]
  refine ⟨huse, ⟨fun h slot hslot => ?_, fun h slot hslot => ?_⟩⟩
  · rw [← huse slot hslot]; exact h slot hslot
  · rw [huse slot hslot]; exact h slot hslot

/-- Witness of C8 (as amended): in `bareSys` no candidate loads and the default
namespace has none of the five symbols, so the five slots are unresolved. -/
theorem mydb_init_without_library_witness :
    (∀ slot ∈ dbSlots,
      (mydb_init bareSys (State.initial [])).driver.get slot =
        bareSys.dlsym 0 (symbolOf slot)) ∧
    ((∀ slot ∈ dbSlots, (mydb_init bareSys (State.initial [])).driver.get slot = 0) ↔
      ∀ slot ∈ dbSlots, bareSys.dlsym 0 (symbolOf slot) = 0) :=
  mydb_init_without_library bareSys (State.initial []) (by decide)

/-- C8 as stated fails: in `preloadedSys` no candidate loads, and `mydb_init`
resolves all five database-capability slots, from the default namespace that
the null handle stands for. -/
theorem mydb_init_resolves_without_library :
    (∀ name ∈ candidates, preloadedSys.dlopen name = 0) ∧
    preloadedSys.RTLD_DEFAULT = 0 ∧
    (∀ slot ∈ dbSlots, (mydb_init preloadedSys (State.initial [])).driver.get slot ≠ 0) ∧
    ¬ (∀ slot ∈ dbSlots, (mydb_init preloadedSys (State.initial [])).driver.get slot = 0) := by
  refine ⟨by decide, by decide, by decide, by decide⟩

/-! ## Calls through the table -/

/-- C10 (as amended): the forwarding operations call through the slots without
testing them.  An operation makes no call through an unresolved slot when the
slots it uses are resolved (`mydb_open`: open and fetch-error-message;
`mydb_exec`: execute and free-buffer; `mydb_close`: close; `myapp_read_input`:
read-line; `myapp_format`: format).  With its first slot unresolved the
operation calls through the null slot: `mydb_open` once the allocation has
succeeded, `mydb_exec` and `mydb_close` on a live handle, `myapp_read_input`
and `myapp_format` on every call. -/
theorem forwarding_calls_follow_table {W : Type} (sys : Sys W) (s : State W) :
    (s.driver.open_ ≠ 0 → s.driver.errmsg ≠ 0 →
      ∀ path, NeverCallsUnresolved (mydb_open sys s path)) ∧
    (s.driver.exec ≠ 0 → s.driver.freemem ≠ 0 →
      ∀ conn sql, NeverCallsUnresolved (mydb_exec sys s conn sql)) ∧
    (s.driver.close ≠ 0 → ∀ conn, NeverCallsUnresolved (mydb_close sys s conn)) ∧
    (s.driver.readline ≠ 0 →
      ∀ prompt buf bufsize, NeverCallsUnresolved (myapp_read_input sys s prompt buf bufsize)) ∧
    (s.driver.format ≠ 0 →
      ∀ dst dstsize fmt value,
        NeverCallsUnresolved (myapp_format sys s dst dstsize fmt value)) ∧
    (s.driver.open_ = 0 → (sys.malloc s.world).1 ≠ 0 →
      ∀ path, mydb_open sys s path = .error (.nullCall .open_)) ∧
    (s.driver.exec = 0 →
      ∀ conn c sql, s.heap conn = some c →
        mydb_exec sys s conn sql = .error (.nullCall .exec)) ∧
    (s.driver.close = 0 →
      ∀ conn c, conn ≠ 0 → s.heap conn = some c →
        mydb_close sys s conn = .error (.nullCall .close)) ∧
    (s.driver.readline = 0 →
      ∀ prompt buf bufsize,
        myapp_read_input sys s prompt buf bufsize = .error (.nullCall .readline)) ∧
    (s.driver.format = 0 →
      ∀ dst dstsize fmt value,
        myapp_format sys s dst dstsize fmt value = .error (.nullCall .format)) := by
  refine ⟨?_, ?_, ?_, ?_, ?_, ?_, ?_, ?_, ?_, ?_⟩
  · intro hopen herr path slot h
    simp only [mydb_open, hopen, herr, if_false] at h
    split at h
    · simp at h
    · split at h <;> simp at h
  · intro hexec hfree conn sql slot h
    simp only [mydb_exec, hexec, hfree, if_false] at h
    split at h
    · simp at h
    · split at h <;> simp at h
  · intro hclose conn slot h
    simp only [mydb_close, hclose, if_false] at h
    split at h
    · split at h <;> simp at h
    · simp at h
  · intro hread prompt buf bufsize slot h
    simp only [myapp_read_input, hread, if_false] at h
    split at h
    · simp at h
    · split at h <;> simp at h
  · intro hformat dst dstsize fmt value slot h
    simp [myapp_format, hformat] at h
  · intro hopen hmem path
    simp [mydb_open, hopen, hmem]
  · intro hexec conn c sql hlive
    simp [mydb_exec, hexec, hlive]
  · intro hclose conn c hconn hlive
    simp [mydb_close, hclose, hconn, hlive]
  · intro hread prompt buf bufsize
    simp [myapp_read_input, hread]
  · intro hformat dst dstsize fmt value
    simp [myapp_format, hformat]

/-- Witness of C10 (as amended): after `mydb_init` in the concrete process every
slot is resolved and `mydb_open` makes no call through an unresolved slot. -/
theorem forwarding_calls_follow_table_witness :
    ∀ path, NeverCallsUnresolved (mydb_open demoSys demoReady path) :=
  (forwarding_calls_follow_table demoSys demoReady).1 (by decide) (by decide)

/-- C10 as stated fails: with the empty table of before `mydb_init`, and with
the table `mydb_init` leaves when no library loads, `mydb_open` calls through
the unresolved open slot, and `myapp_read_input` on the empty table calls
through the unresolved read-line slot. -/
theorem forwarding_calls_unresolved_slot :
    ¬ NeverCallsUnresolved (mydb_open demoSys (State.initial []) "users.db") ∧
    ¬ NeverCallsUnresolved
        (mydb_open bareSys (mydb_init bareSys (State.initial [])) "users.db") ∧
    ¬ NeverCallsUnresolved
        (myapp_read_input demoSys (State.initial []) "Enter username to look up: "
          (List.replicate 16 'x') 16) := by
  refine ⟨fun h => h .open_ rfl, fun h => h .open_ rfl, fun h => h .readline rfl⟩

end MyDb
